import Mathlib

/-!
Verification of the TripFare feature-derivation logic.

The program (src/app.py) collects six user inputs through bounded widgets,
converts the 12-hour pickup time to a 24-hour value, encodes the time of day
as a fractional hour, classifies night rides, assembles a fixed-order
numeric feature vector, and passes it to a pre-trained predictor after a
fitted-readiness check.  The definitions below embed that logic shallowly:
Python integers become Lean integers, Python floats become exact rationals,
and the prediction handler becomes an explicit result paired with a counter
of predictor invocations.
-/

/-- The AM / PM selector of the pickup-time widget (app.py lines 156-160). -/
inductive Meridiem where
  | AM : Meridiem
  | PM : Meridiem
deriving DecidableEq, Repr

/-- Conversion from 12-hour to 24-hour format (app.py lines 167-170):
if AM then 0 when the hour is 12 else the hour unchanged; if PM then 12 when
the hour is 12 else the hour plus 12.  Total over all integers, as in the
source, which performs no range check. -/
def to24Hour (hour12 : ℤ) (m : Meridiem) : ℤ :=
  match m with
  | Meridiem.AM => if hour12 = 12 then 0 else hour12
  | Meridiem.PM => if hour12 = 12 then 12 else hour12 + 12

/-- Fractional-hour encoding (app.py line 173):
pickup_time = pickup_hour_24 + (pickup_minute / 60), Python true division
modelled as exact rational arithmetic. -/
def toFractionalHour (hour24 : ℤ) (minute : ℤ) : ℚ :=
  (hour24 : ℚ) + (minute : ℚ) / 60

/-- Night / early-morning detection (app.py lines 176-179):
true when the 24-hour value is at least 22 or at most 5. -/
def classifyNight (hour24 : ℤ) : Bool :=
  decide (hour24 ≥ 22) || decide (hour24 ≤ 5)

/-- One prediction request: the six widget values (app.py lines 99-160).
The widgets bound each field, but the record itself carries arbitrary
integers and rationals, matching the fact that the derivation code never
re-checks the ranges. -/
structure TripFareRequest where
  passenger_count : ℤ
  trip_distance_km : ℚ
  trip_duration_min : ℤ
  pickup_hour_12 : ℤ
  pickup_minute : ℤ
  meridiem : Meridiem
deriving DecidableEq, Repr

/-- The 24-hour pickup hour of a request (app.py lines 167-170). -/
def pickup_hour_24 (r : TripFareRequest) : ℤ :=
  to24Hour r.pickup_hour_12 r.meridiem

/-- The fractional pickup time of a request (app.py line 173). -/
def pickup_time (r : TripFareRequest) : ℚ :=
  toFractionalHour (pickup_hour_24 r) r.pickup_minute

/-- The night flag of a request (app.py lines 176-179). -/
def is_night (r : TripFareRequest) : Bool :=
  classifyNight (pickup_hour_24 r)

/-- The feature vector handed to the predictor (app.py lines 199-203):
[trip_distance, trip_duration, pickup_time, int(is_night), passenger_count],
all cast to floats, modelled as rationals. -/
def input_data (r : TripFareRequest) : List ℚ :=
  [r.trip_distance_km, (r.trip_duration_min : ℚ), pickup_time r,
   if is_night r then 1 else 0, (r.passenger_count : ℚ)]

/-- Modelled from the spec: the widget bounds of app.py lines 99-160
(passenger 1-6, distance 0.5-50.0, duration 2-120, hour 1-12, minute 0-59)
restated as an explicit range check, which the spec (sections 3, 4.1, 7)
requires of buildFeatureVector but which is absent from src/app.py because
the bounded widgets make out-of-range values unreachable there. -/
def validRequest (r : TripFareRequest) : Bool :=
  decide (1 ≤ r.passenger_count) && decide (r.passenger_count ≤ 6) &&
  decide (1/2 ≤ r.trip_distance_km) && decide (r.trip_distance_km ≤ 50) &&
  decide (2 ≤ r.trip_duration_min) && decide (r.trip_duration_min ≤ 120) &&
  decide (1 ≤ r.pickup_hour_12) && decide (r.pickup_hour_12 ≤ 12) &&
  decide (0 ≤ r.pickup_minute) && decide (r.pickup_minute ≤ 59)

/-- The error cases of the feature-building boundary (spec section 7). -/
inductive BuildError where
  | ValidationError : BuildError
deriving DecidableEq, Repr

/-- Modelled from the spec: buildFeatureVector (spec section 4.1) validates
the declared ranges and then emits exactly the fixed-order vector that
src/app.py lines 199-203 assemble; the validation wrapper is absent from
src/app.py, where bounded widgets enforce the ranges. -/
def buildFeatureVector (r : TripFareRequest) : Except BuildError (List ℚ) :=
  if validRequest r then Except.ok (input_data r)
  else Except.error BuildError.ValidationError

/-- The predictor boundary: an opaque object with a fitted flag and a
predict capability (spec section 4.2; app.py lines 19-24 and 196, 206). -/
structure Model where
  fitted : Bool
  predictFn : List ℚ → ℚ

/-- The readiness error surfaced by the fitted check (spec section 7). -/
inductive PredictionError where
  | ModelNotReadyError : PredictionError
deriving DecidableEq, Repr

/-- The fitted precondition check (app.py line 196): raises the readiness
error when the model is not fitted and otherwise returns control. -/
def check_is_fitted (m : Model) : Except PredictionError Unit :=
  if m.fitted then Except.ok ()
  else Except.error PredictionError.ModelNotReadyError

/-- The prediction handler (app.py lines 195-206): on a click it first runs
the fitted check and only then calls predict on the assembled vector.  The
second component counts how many times predict was invoked, so that the
absence of a prediction attempt on the error path is visible in the
result. -/
def runPrediction (m : Model) (r : TripFareRequest) :
    Except PredictionError ℚ × ℕ :=
  match check_is_fitted m with
  | Except.error e => (Except.error e, 0)
  | Except.ok _ => (Except.ok (m.predictFn (input_data r)), 1)

/-- Scenario-1 request of spec section 8: distance 5.0, duration 15,
11:00 PM, one passenger. -/
def exampleRequest : TripFareRequest :=
  ⟨1, 5, 15, 11, 0, Meridiem.PM⟩

/-- Scenario-2 request of spec section 8: distance 0.5, duration 2,
12:00 AM, six passengers. -/
def scenario2Request : TripFareRequest :=
  ⟨6, 1/2, 2, 12, 0, Meridiem.AM⟩

/-- A request whose hour field lies outside the 12-hour range. -/
def outOfRangeRequest : TripFareRequest :=
  ⟨1, 5, 15, 13, 30, Meridiem.PM⟩

/-- An unfitted model returning a constant, used to exercise the readiness
path of the prediction handler. -/
def unfittedModel : Model :=
  ⟨false, fun _ => 0⟩

/-- A fitted model returning a constant. -/
def fittedModel : Model :=
  ⟨true, fun _ => 7⟩

/-- The twelve options of the hour selectbox (app.py line 142). -/
def hour12Choices : List ℤ :=
  [1, 2, 3, 4, 5, 6, 7, 8, 9, 10, 11, 12]

/-- The 24-hour images of the twelve AM hours. -/
def amImages : List ℤ :=
  hour12Choices.map (fun h => to24Hour h Meridiem.AM)

/-- The 24-hour images of the twelve PM hours. -/
def pmImages : List ℤ :=
  hour12Choices.map (fun h => to24Hour h Meridiem.PM)

/-- C2: for every hour12 in [1,12] and either meridiem, to24Hour returns 0
for 12 AM, the hour unchanged for other AM hours, 12 for 12 PM, and the
hour plus 12 for other PM hours, with no error case on this domain. -/
theorem to24Hour_cases (hour12 : ℤ) (m : Meridiem)
    (h1 : 1 ≤ hour12) (h2 : hour12 ≤ 12) :
    (m = Meridiem.AM → hour12 = 12 → to24Hour hour12 m = 0) ∧
    (m = Meridiem.AM → hour12 ≠ 12 → to24Hour hour12 m = hour12) ∧
    (m = Meridiem.PM → hour12 = 12 → to24Hour hour12 m = 12) ∧
    (m = Meridiem.PM → hour12 ≠ 12 → to24Hour hour12 m = hour12 + 12) := by
  refine ⟨?_, ?_, ?_, ?_⟩ <;> rintro rfl h <;> simp [to24Hour, h]

/-- Witness for C2: the four cases evaluated at concrete hours. -/
theorem to24Hour_cases_witness :
    to24Hour 12 Meridiem.AM = 0 ∧ to24Hour 7 Meridiem.AM = 7 ∧
    to24Hour 12 Meridiem.PM = 12 ∧ to24Hour 7 Meridiem.PM = 19 :=
  ⟨(to24Hour_cases 12 Meridiem.AM (by decide) (by decide)).1 rfl rfl,
   (to24Hour_cases 7 Meridiem.AM (by decide) (by decide)).2.1 rfl (by decide),
   (to24Hour_cases 12 Meridiem.PM (by decide) (by decide)).2.2.1 rfl rfl,
   (to24Hour_cases 7 Meridiem.PM (by decide) (by decide)).2.2.2 rfl (by decide)⟩

/-- C3: classifyNight holds exactly when the hour is at least 22 or at most
5, and the boundary values 5, 6, 21, 22, 0, 23 classify as the spec lists
them. -/
theorem classifyNight_iff_boundaries :
    (∀ hour24 : ℤ, classifyNight hour24 = true ↔ (22 ≤ hour24 ∨ hour24 ≤ 5)) ∧
    classifyNight 5 = true ∧ classifyNight 6 = false ∧
    classifyNight 21 = false ∧ classifyNight 22 = true ∧
    classifyNight 0 = true ∧ classifyNight 23 = true := by
  refine ⟨fun hour24 => ?_, by decide, by decide, by decide, by decide,
    by decide, by decide⟩
  simp [classifyNight, ge_iff_le]

/-- C5: toFractionalHour equals exactly hour24 + minute/60 and lies in the
half-open interval from hour24 to hour24 + 1 on the declared domain. -/
theorem toFractionalHour_exact_and_bounded (hour24 minute : ℤ)
    (h1 : 0 ≤ hour24) (h2 : hour24 ≤ 23) (h3 : 0 ≤ minute) (h4 : minute ≤ 59) :
    toFractionalHour hour24 minute = (hour24 : ℚ) + (minute : ℚ) / 60 ∧
    (hour24 : ℚ) ≤ toFractionalHour hour24 minute ∧
    toFractionalHour hour24 minute < (hour24 : ℚ) + 1 := by
  refine ⟨rfl, ?_, ?_⟩
  · have hm : (0 : ℚ) ≤ (minute : ℚ) := by exact_mod_cast h3
    have hq : (0 : ℚ) ≤ (minute : ℚ) / 60 := by positivity
    unfold toFractionalHour
    linarith
  · have hm : (minute : ℚ) < 60 := by exact_mod_cast (by omega : minute < 60)
    have hq : (minute : ℚ) / 60 < 1 :=
      (div_lt_one (by norm_num : (0 : ℚ) < 60)).mpr hm
    unfold toFractionalHour
    linarith

/-- Witness for C5: the bounds evaluated at hour 13, minute 30. -/
theorem toFractionalHour_exact_and_bounded_witness :
    toFractionalHour 13 30 = ((13 : ℤ) : ℚ) + ((30 : ℤ) : ℚ) / 60 ∧
    ((13 : ℤ) : ℚ) ≤ toFractionalHour 13 30 ∧
    toFractionalHour 13 30 < ((13 : ℤ) : ℚ) + 1 :=
  toFractionalHour_exact_and_bounded 13 30 (by decide) (by decide)
    (by decide) (by decide)

/-- C6: to24Hour is a bijection from the hour choices crossed with the two
meridiems onto 0..23: midnight maps to 0, noon to 12, the AM images are a
permutation of 0..11, the PM images of 12..23, and together they hit each
of the 24 hours exactly once. -/
theorem to24Hour_bijection :
    to24Hour 12 Meridiem.AM = 0 ∧ to24Hour 12 Meridiem.PM = 12 ∧
    amImages.Perm ((List.range 12).map (fun n => (n : ℤ))) ∧
    pmImages.Perm ((List.range 12).map (fun n => (n : ℤ) + 12)) ∧
    (amImages ++ pmImages).Perm ((List.range 24).map (fun n => (n : ℤ))) := by
  refine ⟨by decide, by decide, ?_, ?_, ?_⟩ <;> decide

/-- C1: for every request in the declared domain, buildFeatureVector
succeeds and emits a vector of length exactly 5 in the fixed order
[distance, duration, fractional time, night flag, passenger count], with
the night flag encoded as 0 or 1. -/
theorem buildFeatureVector_fixed_order (r : TripFareRequest)
    (h : validRequest r = true) :
    buildFeatureVector r = Except.ok (input_data r) ∧
    input_data r =
      [r.trip_distance_km, (r.trip_duration_min : ℚ), pickup_time r,
       if is_night r then 1 else 0, (r.passenger_count : ℚ)] ∧
    (input_data r).length = 5 ∧
    ((if is_night r then (1 : ℚ) else 0) = 0 ∨
     (if is_night r then (1 : ℚ) else 0) = 1) := by
  refine ⟨by simp [buildFeatureVector, h], rfl, rfl, ?_⟩
  by_cases hn : is_night r <;> simp [hn]

/-- Witness for C1: the fixed-order conclusion at the scenario-1 request. -/
theorem buildFeatureVector_fixed_order_witness :
    buildFeatureVector exampleRequest = Except.ok (input_data exampleRequest) ∧
    input_data exampleRequest =
      [exampleRequest.trip_distance_km,
       (exampleRequest.trip_duration_min : ℚ), pickup_time exampleRequest,
       if is_night exampleRequest then 1 else 0,
       (exampleRequest.passenger_count : ℚ)] ∧
    (input_data exampleRequest).length = 5 ∧
    ((if is_night exampleRequest then (1 : ℚ) else 0) = 0 ∨
     (if is_night exampleRequest then (1 : ℚ) else 0) = 1) :=
  buildFeatureVector_fixed_order exampleRequest
    (by norm_num [validRequest, exampleRequest])

/-- C4: buildFeatureVector fails with ValidationError exactly when one of
the five numeric fields leaves its declared range, and succeeds with the
feature vector whenever all five lie inside their ranges. -/
theorem buildFeatureVector_validation (r : TripFareRequest) :
    (buildFeatureVector r = Except.error BuildError.ValidationError ↔
      (r.passenger_count < 1 ∨ 6 < r.passenger_count ∨
       r.trip_distance_km < 1/2 ∨ 50 < r.trip_distance_km ∨
       r.trip_duration_min < 2 ∨ 120 < r.trip_duration_min ∨
       r.pickup_hour_12 < 1 ∨ 12 < r.pickup_hour_12 ∨
       r.pickup_minute < 0 ∨ 59 < r.pickup_minute)) ∧
    ((1 ≤ r.passenger_count ∧ r.passenger_count ≤ 6 ∧
      1/2 ≤ r.trip_distance_km ∧ r.trip_distance_km ≤ 50 ∧
      2 ≤ r.trip_duration_min ∧ r.trip_duration_min ≤ 120 ∧
      1 ≤ r.pickup_hour_12 ∧ r.pickup_hour_12 ≤ 12 ∧
      0 ≤ r.pickup_minute ∧ r.pickup_minute ≤ 59) →
      buildFeatureVector r = Except.ok (input_data r)) := by
  have hv : validRequest r = true ↔
      (1 ≤ r.passenger_count ∧ r.passenger_count ≤ 6 ∧
       1/2 ≤ r.trip_distance_km ∧ r.trip_distance_km ≤ 50 ∧
       2 ≤ r.trip_duration_min ∧ r.trip_duration_min ≤ 120 ∧
       1 ≤ r.pickup_hour_12 ∧ r.pickup_hour_12 ≤ 12 ∧
       0 ≤ r.pickup_minute ∧ r.pickup_minute ≤ 59) := by
    simp [validRequest, and_assoc]
  constructor
  · have hne : buildFeatureVector r = Except.error BuildError.ValidationError ↔
        ¬ validRequest r = true := by
      by_cases hb : validRequest r <;> simp [buildFeatureVector, hb]
    rw [hne, hv]
    simp only [not_and_or, not_le]
  · intro h
    simp [buildFeatureVector, hv.mpr h]

/-- Witness for C4: the success branch at the scenario-1 request. -/
theorem buildFeatureVector_validation_witness :
    buildFeatureVector exampleRequest = Except.ok (input_data exampleRequest) :=
  (buildFeatureVector_validation exampleRequest).2 (by norm_num [exampleRequest])

/-- C7: the night flag depends only on the hour and the meridiem, never on
the minute; a 5:59 AM pickup is night and a 6:00 AM pickup is day. -/
theorem is_night_minute_independent :
    (∀ r1 r2 : TripFareRequest, r1.pickup_hour_12 = r2.pickup_hour_12 →
      r1.meridiem = r2.meridiem → is_night r1 = is_night r2) ∧
    is_night ⟨1, 5, 15, 5, 59, Meridiem.AM⟩ = true ∧
    is_night ⟨1, 5, 15, 6, 0, Meridiem.AM⟩ = false := by
  refine ⟨fun r1 r2 h1 h2 => ?_, by decide, by decide⟩
  simp [is_night, pickup_hour_24, h1, h2]

/-- Witness for C7: two requests sharing hour and meridiem but with
different minutes receive the same night flag. -/
theorem is_night_minute_independent_witness :
    is_night ⟨1, 5, 15, 11, 0, Meridiem.PM⟩ =
      is_night ⟨1, 5, 15, 11, 59, Meridiem.PM⟩ :=
  is_night_minute_independent.1 ⟨1, 5, 15, 11, 0, Meridiem.PM⟩
    ⟨1, 5, 15, 11, 59, Meridiem.PM⟩ rfl rfl

/-- C8: the scenario-2 request (0.5 km, 2 min, 12:00 AM, 6 passengers)
derives hour 0, fractional time 0.0, night true, and the vector
[0.5, 2, 0.0, 1, 6]. -/
theorem scenario_midnight :
    pickup_hour_24 scenario2Request = 0 ∧
    pickup_time scenario2Request = 0 ∧
    is_night scenario2Request = true ∧
    input_data scenario2Request = [1/2, 2, 0, 1, 6] := by
  norm_num [input_data, pickup_time, pickup_hour_24, is_night,
    scenario2Request, to24Hour, toFractionalHour, classifyNight]

/-- C9: on every click the fitted check runs before predict: an unfitted
model yields the readiness error with zero predict calls, and a fitted
model yields the prediction of the assembled vector with one call. -/
theorem runPrediction_readiness (m : Model) (r : TripFareRequest) :
    (m.fitted = false →
      runPrediction m r = (Except.error PredictionError.ModelNotReadyError, 0)) ∧
    (m.fitted = true →
      runPrediction m r = (Except.ok (m.predictFn (input_data r)), 1)) := by
  constructor <;> intro h <;> simp [runPrediction, check_is_fitted, h]

/-- Witness for C9: both branches at concrete models and the scenario-1
request. -/
theorem runPrediction_readiness_witness :
    runPrediction unfittedModel exampleRequest =
      (Except.error PredictionError.ModelNotReadyError, 0) ∧
    runPrediction fittedModel exampleRequest =
      (Except.ok (fittedModel.predictFn (input_data exampleRequest)), 1) :=
  ⟨(runPrediction_readiness unfittedModel exampleRequest).1 rfl,
   (runPrediction_readiness fittedModel exampleRequest).2 rfl⟩

/-- C10: the derivation in the reference code is total with no range check:
every request, in range or not, yields a 5-element vector, and the out-of-
range hour 13:30 PM silently becomes hour 25, fractional time 25.5, a night
flag computed from 25, and a full vector. -/
theorem derivation_total_no_range_check :
    (∀ r : TripFareRequest, (input_data r).length = 5) ∧
    to24Hour 13 Meridiem.PM = 25 ∧
    pickup_hour_24 outOfRangeRequest = 25 ∧
    pickup_time outOfRangeRequest = 51/2 ∧
    is_night outOfRangeRequest = classifyNight 25 ∧
    input_data outOfRangeRequest = [5, 15, 51/2, 1, 1] := by
  refine ⟨fun r => rfl, by decide, by decide, ?_, by decide, ?_⟩ <;>
    norm_num [input_data, pickup_time, pickup_hour_24, is_night,
      outOfRangeRequest, to24Hour, toFractionalHour, classifyNight]
